import Mathlib

/-!
Shallow embedding of the mock PCI accelerator device server
(`src/vfio-user/mock-accel-server.c`) and proofs about its register file,
SR-IOV capability builder, config-space composer and passphrase engine.

Machine bytes are modelled as `Nat` values (< 256 in well-formed buffers),
buffers as `List Nat`, words of the dictionary as byte lists.  The entropy
source (`getrandom` with a `/dev/urandom` fallback) is modelled as a function
`Nat → Option Nat` giving the i-th 16-bit draw, `none` meaning both sources
failed.  A NULL-pointer dereference (reading a wordlist slot that was never
loaded) is modelled as the `none` outcome of `generate_passphrase` /
the `crash` outcome of a BAR0 access.
-/

namespace MockDevice

/-- `DEVICE_ID_MAGIC` from the source: "MOCK" in little-endian. -/
def DEVICE_ID_MAGIC : Nat := 0x4B434F4D

/-- `REVISION` from the source: v1.0.0. -/
def REVISION : Nat := 0x00010000

/-- `FW_VERSION` from the source: firmware v1.0.0. -/
def FW_VERSION : Nat := 0x00010000

/-- `MOCK_ACCEL_VF_DEVICE_ID` from the source. -/
def MOCK_ACCEL_VF_DEVICE_ID : Nat := 0x0002

/-- `STATUS_READY` bitmask from the source. -/
def STATUS_READY : Nat := 1

/-- The mutable part of `struct mock_accel_state` that the claims touch.
`wordlist` holds the words actually loaded (slot `i` of the C array is
non-NULL exactly for `i < wordlist.length`, since `load_wordlist` fills
slots contiguously from 0). -/
structure MockAccelState where
  uuidBytes : List Nat
  memorySize : Nat
  capabilities : Nat
  status : Nat
  sriovCap : List Nat
  wordlist : List (List Nat)
  passphraseBuffer : List Nat
  passphraseLength : Nat
  passphraseStatus : Nat
  passphraseCount : Nat
deriving DecidableEq, Repr

/-- Little-endian byte decomposition: the low `n` bytes of `v`,
as written by `memcpy(buf, &value, n)` on a little-endian machine. -/
def leBytes (n v : Nat) : List Nat :=
  (List.range n).map fun i => v / 256 ^ i % 256

/-- Little-endian decode of the first four bytes of a buffer, as read by
`memcpy(&x, buf, 4)` on a little-endian machine. -/
def leDecode4 (data : List Nat) : Nat :=
  data.getD 0 0 + 256 * data.getD 1 0 + 65536 * data.getD 2 0 +
    16777216 * data.getD 3 0

/-- `index = index % 7776` from `generate_passphrase` (the divisor is the
hard-coded EFF wordlist capacity, not the number of words loaded). -/
def selectedIndex (v : Nat) : Nat := v % 7776

/-- One line of the wordlist file, as processed by `load_wordlist`:
skip up to the first tab (byte 9); a line without a tab is dropped;
the word is everything after the tab up to the first newline (byte 10). -/
def parseLine (line : List Nat) : Option (List Nat) :=
  match line.dropWhile (· ≠ 9) with
  | [] => none
  | _ :: rest => some (rest.takeWhile (· ≠ 10))

/-- `load_wordlist`, abstracted over the file contents (a list of lines):
words are stored contiguously from slot 0, at most 7776 of them. -/
def load_wordlist (lines : List (List Nat)) : List (List Nat) :=
  (lines.filterMap parseLine).take 7776

/-- Outcome of the word-assembly loop of `generate_passphrase`.
`success acc`/`failure acc` carry the bytes written into the (zeroed)
buffer so far; `crash` is the NULL dereference of an unloaded slot. -/
inductive GenResult where
  | success (acc : List Nat)
  | failure (acc : List Nat)
  | crash
deriving DecidableEq, Repr

/-- The `for` loop of `generate_passphrase`: iteration counter `i`,
`todo` words still to emit, `acc` the bytes written so far, `remaining`
the free space (initially 255, one byte reserved for the terminator).
Each draw is reduced by `selectedIndex`; a separator (0x20) precedes
every word except the first. -/
def genLoop (wl : List (List Nat)) (entropy : Nat → Option Nat) :
    Nat → Nat → List Nat → Nat → GenResult
  | _, 0, acc, _ => .success acc
  | i, todo + 1, acc, remaining =>
    match entropy i with
    | none => .failure acc
    | some v =>
      match wl[selectedIndex v]? with
      | none => .crash
      | some word =>
        if 0 < i then
          if remaining < 1 then .failure acc
          else if remaining - 1 < word.length then .failure (acc ++ [0x20])
          else genLoop wl entropy (i + 1) todo (acc ++ [0x20] ++ word)
                 (remaining - 1 - word.length)
        else
          if remaining < word.length then .failure acc
          else genLoop wl entropy (i + 1) todo (acc ++ word)
                 (remaining - word.length)

/-- `generate_passphrase`.  The buffer is first zeroed, so after the loop it
holds the accumulated bytes padded with zero bytes (the terminator written on
success coincides with the zero fill).  `none` models the crash on reading an
unloaded wordlist slot. -/
def generate_passphrase (st : MockAccelState) (entropy : Nat → Option Nat) :
    Option MockAccelState :=
  if st.passphraseLength < 4 ∨ 12 < st.passphraseLength then
    some { st with passphraseStatus := 3 }
  else if st.wordlist[0]? = none then
    some { st with passphraseStatus := 3 }
  else
    match genLoop st.wordlist entropy 0 st.passphraseLength [] 255 with
    | .crash => none
    | .failure acc =>
      some { st with passphraseStatus := 3,
                     passphraseBuffer := acc ++ List.replicate (256 - acc.length) 0 }
    | .success acc =>
      some { st with passphraseBuffer := acc ++ List.replicate (256 - acc.length) 0,
                     passphraseCount := st.passphraseLength,
                     passphraseStatus := 2 }

/-- The `(value, value_size)` cases of the read `switch` in `bar0_access`. -/
def regValue? (st : MockAccelState) (offset : Nat) : Option (Nat × Nat) :=
  if offset = 0x00 then some (DEVICE_ID_MAGIC, 4)
  else if offset = 0x04 then some (REVISION, 4)
  else if offset = 0x20 then some (st.memorySize, 8)
  else if offset = 0x28 then some (st.capabilities, 4)
  else if offset = 0x2C then some (st.status, 4)
  else if offset = 0x30 then some (FW_VERSION, 4)
  else if offset = 0x104 then some (st.passphraseLength, 4)
  else if offset = 0x108 then some (st.passphraseStatus, 4)
  else if offset = 0x10C then some (st.passphraseCount, 4)
  else none

/-- Fault classes of the write path of `bar0_access` (both are reported as
`errno = EINVAL`, distinguished by which branch logs them). -/
inductive AccessFault where
  | invalidArgument
  | readOnlyViolation
deriving DecidableEq, Repr

/-- Result of one BAR0 access: a served byte count together with the
(possibly updated) caller buffer and device state, a fault, or a crash
inside passphrase generation. -/
inductive AccessResult where
  | ok (bytesServed : Nat) (buf : List Nat) (st : MockAccelState)
  | fault (f : AccessFault) (st : MockAccelState)
  | crash
deriving DecidableEq, Repr

/-- `bar0_access`.  `buf` is the caller's buffer (length `count`): on a write
it holds the data, on a read its bytes survive wherever the C code does not
write.  Each branch mirrors one case of the C function. -/
def bar0_access (st : MockAccelState) (buf : List Nat) (count offset : Nat)
    (is_write : Bool) (entropy : Nat → Option Nat) : AccessResult :=
  if is_write then
    if offset = 0x2C ∧ count = 4 then
      .ok count buf { st with status := leDecode4 buf }
    else if offset = 0x104 ∧ count = 4 then
      if 4 ≤ leDecode4 buf ∧ leDecode4 buf ≤ 12 then
        .ok count buf { st with passphraseLength := leDecode4 buf }
      else .fault .invalidArgument st
    else if offset = 0x100 ∧ count = 4 then
      if leDecode4 buf = 1 then
        match generate_passphrase st entropy with
        | none => .crash
        | some st2 => .ok count buf st2
      else .ok count buf st
    else .fault .readOnlyViolation st
  else
    if 0x08 ≤ offset ∧ offset ≤ 0x17 then
      if count = 1 then
        .ok 1 (st.uuidBytes.getD (offset - 8) 0 :: buf.drop 1) st
      else
        .ok count ((List.range count).map fun i =>
          if offset - 8 + i < 16 then st.uuidBytes.getD (offset - 8 + i) 0
          else buf.getD i 0) st
    else if 0x200 ≤ offset ∧ offset ≤ 0x2FF then
      let bo := offset - 0x200
      let copyLen := if 256 < bo + count then 256 - bo else count
      .ok copyLen ((st.passphraseBuffer.drop bo).take copyLen ++ buf.drop copyLen) st
    else
      match regValue? st offset with
      | some (v, vs) =>
        if vs < count then
          .ok vs (leBytes vs v ++ List.replicate (count - vs) 0) st
        else
          .ok count (leBytes count v) st
      | none => .ok count (List.replicate count 0) st

/-- `device_reset`: ready status, passphrase engine idle, buffer cleared;
everything else untouched. -/
def device_reset (st : MockAccelState) : MockAccelState :=
  { st with status := STATUS_READY,
            passphraseStatus := 0,
            passphraseCount := 0,
            passphraseBuffer := List.replicate 256 0 }

/-- The SR-IOV extended capability bytes built in `main` for a physical
function, byte for byte (little-endian fields). -/
def build_sriov_cap (totalVfs : Nat) : List Nat :=
  [0x10, 0x00, 0x01, 0x00,
   0x01, 0x00, 0x00, 0x00,
   0x00, 0x00,
   0x00, 0x00,
   totalVfs % 256, totalVfs / 256 % 256,
   totalVfs % 256, totalVfs / 256 % 256,
   0x00, 0x00,
   0x00,
   0x00,
   0x01, 0x00,
   0x01, 0x00,
   0x00, 0x00,
   MOCK_ACCEL_VF_DEVICE_ID % 256, MOCK_ACCEL_VF_DEVICE_ID / 256 % 256]

/-- The read branch of `config_space_access`, abstracted over the
externally owned 256-byte standard header and the capability bytes
(`state->sriov_cap` up to `state->sriov_cap_size`).  Returns the served
count (always `count`) and the buffer contents. -/
def config_space_read (header cap : List Nat) (offset count : Nat) :
    Nat × List Nat :=
  let stdPart : List Nat :=
    if offset < 0x100 then
      let stdBytes := if offset + count ≤ 0x100 then count else 0x100 - offset
      (header.drop offset).take stdBytes
    else []
  let extPart : List Nat :=
    if 0x100 < offset + count then
      let extOffset := if 0x100 ≤ offset then offset - 0x100 else 0
      let extStart := if 0x100 ≤ offset then 0 else 0x100 - offset
      let extBytes := count - extStart
      let capPart : List Nat :=
        if extOffset < cap.length then
          let capBytes :=
            if extOffset + extBytes ≤ cap.length then extBytes
            else cap.length - extOffset
          (cap.drop extOffset).take capBytes
        else []
      capPart ++ List.replicate (extBytes - capPart.length) 0xFF
    else []
  (count, stdPart ++ extPart)

/-- The word selected by the j-th entropy draw `e j` (empty if the slot was
never loaded; that case makes `genLoop` crash). -/
def wordBytes (wl : List (List Nat)) (e : Nat → Nat) (j : Nat) : List Nat :=
  (wl[selectedIndex (e j)]?).getD []

/-- The bytes the j-th word contributes to the output: one separator before
every word except the first, then the word. -/
def chunk (wl : List (List Nat)) (e : Nat → Nat) (j : Nat) : List Nat :=
  (if j = 0 then [] else [0x20]) ++ wordBytes wl e j

/-- The fully assembled passphrase for `n` words under draw sequence `e`. -/
def joined (wl : List (List Nat)) (e : Nat → Nat) (n : Nat) : List Nat :=
  ((List.range n).map (chunk wl e)).flatten

/-- A concrete device state used to instantiate universally quantified
theorems: one loaded word, valid configured length. -/
def st0 : MockAccelState :=
  { uuidBytes := List.replicate 16 0
    memorySize := 16
    capabilities := 1
    status := 1
    sriovCap := build_sriov_cap 4
    wordlist := [[0x61]]
    passphraseBuffer := List.replicate 256 0
    passphraseLength := 4
    passphraseStatus := 0
    passphraseCount := 0 }

/-- C1 counterexample: the capability built for totalVfs = 1 is 28 bytes,
not 26, and its bytes 24-25 are the reserved zero field, not the VF device
ID (which sits at bytes 26-27). -/
theorem sriov_cap_claim_cex :
    (build_sriov_cap 1).length = 28 ∧ (build_sriov_cap 1).length ≠ 26 ∧
    (build_sriov_cap 1).get? 24 = some 0x00 ∧
    (build_sriov_cap 1).get? 25 = some 0x00 ∧
    (build_sriov_cap 1).get? 26 = some 0x02 ∧
    (build_sriov_cap 1).get? 27 = some 0x00 := by
  decide

/-- C1 (amended): for every totalVfs in 1..=7 the SR-IOV capability is the
28-byte little-endian structure: header 0x10,0x00,0x01,0x00; Capabilities
bit 0 set; Control = Status = 0; InitialVFs = TotalVFs = totalVfs;
NumVFs = 0; Function Dependency Link = 0; reserved byte 19 = 0; First VF
Offset = 1; VF Stride = 1; reserved bytes 24-25 = 0; VF device ID 0x0002 at
bytes 26-27. -/
theorem sriov_cap_layout (n : Nat) (h1 : 1 ≤ n) (h2 : n ≤ 7) :
    build_sriov_cap n =
      [0x10, 0x00, 0x01, 0x00, 0x01, 0x00, 0x00, 0x00, 0x00, 0x00, 0x00, 0x00,
       n, 0x00, n, 0x00, 0x00, 0x00, 0x00, 0x00, 0x01, 0x00, 0x01, 0x00,
       0x00, 0x00, 0x02, 0x00] := by
  interval_cases n <;> rfl

/-- Witness for `sriov_cap_layout` at totalVfs = 4. -/
theorem sriov_cap_layout_witness :
    1 ≤ 4 ∧ 4 ≤ 7 ∧
    build_sriov_cap 4 =
      [0x10, 0x00, 0x01, 0x00, 0x01, 0x00, 0x00, 0x00, 0x00, 0x00, 0x00, 0x00,
       4, 0x00, 4, 0x00, 0x00, 0x00, 0x00, 0x00, 0x01, 0x00, 0x01, 0x00,
       0x00, 0x00, 0x02, 0x00] :=
  ⟨by decide, by decide, sriov_cap_layout 4 (by decide) (by decide)⟩

/-- C4: a 4-byte write to PassphraseLength (0x104) succeeds and stores the
decoded value iff that value lies in 4..=12; otherwise it faults with
InvalidArgument and the device state (the whole record) is unchanged. -/
theorem passphrase_length_write (st : MockAccelState) (data : List Nat)
    (entropy : Nat → Option Nat) :
    bar0_access st data 4 0x104 true entropy =
      if 4 ≤ leDecode4 data ∧ leDecode4 data ≤ 12 then
        .ok 4 data { st with passphraseLength := leDecode4 data }
      else .fault .invalidArgument st := by
  simp [bar0_access]

/-- C6: any BAR0 write whose (offset, count) pair is not exactly
(0x2C, 4), (0x104, 4) or (0x100, 4) faults with ReadOnlyViolation and
leaves the device state unchanged. -/
theorem bar0_write_readonly (st : MockAccelState) (buf : List Nat)
    (count offset : Nat) (entropy : Nat → Option Nat)
    (h1 : ¬(offset = 0x2C ∧ count = 4))
    (h2 : ¬(offset = 0x104 ∧ count = 4))
    (h3 : ¬(offset = 0x100 ∧ count = 4)) :
    bar0_access st buf count offset true entropy =
      .fault .readOnlyViolation st := by
  simp [bar0_access, h1, h2, h3]

/-- Witness for `bar0_write_readonly`: a 4-byte write to the read-only
DeviceIdMagic register faults. -/
theorem bar0_write_readonly_witness :
    ¬((0x00 : Nat) = 0x2C ∧ (4 : Nat) = 4) ∧
    ¬((0x00 : Nat) = 0x104 ∧ (4 : Nat) = 4) ∧
    ¬((0x00 : Nat) = 0x100 ∧ (4 : Nat) = 4) ∧
    bar0_access st0 [0, 0, 0, 0] 4 0x00 true (fun _ => none) =
      .fault .readOnlyViolation st0 :=
  ⟨by decide, by decide, by decide,
    bar0_write_readonly st0 [0, 0, 0, 0] 4 0x00 (fun _ => none)
      (by decide) (by decide) (by decide)⟩

/-- C8: a reset sets RuntimeStatus to the ready bitmask, PassphraseStatus to
Idle, PassphraseWordsGenerated to 0 and clears the passphrase buffer, while
the identity fields (uuid, memory size, capabilities, and the constant
device-id magic / revision / firmware version registers) and the SR-IOV
capability bytes are unchanged. -/
theorem device_reset_spec (st : MockAccelState) :
    (device_reset st).status = STATUS_READY ∧
    (device_reset st).passphraseStatus = 0 ∧
    (device_reset st).passphraseCount = 0 ∧
    (device_reset st).passphraseBuffer = List.replicate 256 0 ∧
    (device_reset st).uuidBytes = st.uuidBytes ∧
    (device_reset st).memorySize = st.memorySize ∧
    (device_reset st).capabilities = st.capabilities ∧
    (device_reset st).sriovCap = st.sriovCap ∧
    (device_reset st).wordlist = st.wordlist ∧
    regValue? (device_reset st) 0x00 = regValue? st 0x00 ∧
    regValue? (device_reset st) 0x04 = regValue? st 0x04 ∧
    regValue? (device_reset st) 0x30 = regValue? st 0x30 :=
  ⟨rfl, rfl, rfl, rfl, rfl, rfl, rfl, rfl, rfl, rfl, rfl, rfl⟩

/-- C10: a BAR0 read at any offset outside the defined register map (the
nine fixed-width registers, the UUID window 0x08..0x17 and the passphrase
buffer window 0x200..0x2FF) returns exactly `count` zero bytes and never
faults. -/
theorem bar0_read_undefined (st : MockAccelState) (buf : List Nat)
    (count offset : Nat) (entropy : Nat → Option Nat)
    (h1 : ¬(0x08 ≤ offset ∧ offset ≤ 0x17))
    (h2 : ¬(0x200 ≤ offset ∧ offset ≤ 0x2FF))
    (h3 : offset ∉ ([0x00, 0x04, 0x20, 0x28, 0x2C, 0x30, 0x104, 0x108,
        0x10C] : List Nat)) :
    bar0_access st buf count offset false entropy =
      .ok count (List.replicate count 0) st := by
  simp only [List.mem_cons, List.not_mem_nil, or_false, not_or] at h3
  obtain ⟨n1, n2, n3, n4, n5, n6, n7, n8, n9⟩ := h3
  simp [bar0_access, regValue?, h1, h2, n1, n2, n3, n4, n5, n6, n7, n8, n9]

/-- Witness for `bar0_read_undefined` at offset 0x50, count 3. -/
theorem bar0_read_undefined_witness :
    ¬((0x08 : Nat) ≤ 0x50 ∧ (0x50 : Nat) ≤ 0x17) ∧
    ¬((0x200 : Nat) ≤ 0x50 ∧ (0x50 : Nat) ≤ 0x2FF) ∧
    (0x50 : Nat) ∉ ([0x00, 0x04, 0x20, 0x28, 0x2C, 0x30, 0x104, 0x108,
        0x10C] : List Nat) ∧
    bar0_access st0 [7, 7, 7] 3 0x50 false (fun _ => none) =
      .ok 3 (List.replicate 3 0) st0 :=
  ⟨by decide, by decide, by decide,
    bar0_read_undefined st0 [7, 7, 7] 3 0x50 (fun _ => none)
      (by decide) (by decide) (by decide)⟩

/-- C9: a BAR0 read of any fixed-width register with a count greater than
the register's width serves exactly the register's width bytes (the value
in little-endian order) and zero-fills the remainder of the caller's
buffer. -/
theorem bar0_read_truncated (st : MockAccelState) (buf : List Nat)
    (count offset v vs : Nat) (entropy : Nat → Option Nat)
    (hreg : regValue? st offset = some (v, vs))
    (hc : vs < count) :
    bar0_access st buf count offset false entropy =
      .ok vs (leBytes vs v ++ List.replicate (count - vs) 0) st := by
  unfold regValue? at hreg
  split_ifs at hreg with e1 e2 e3 e4 e5 e6 e7 e8 e9 <;>
    first
      | exact Option.noConfusion hreg
      | · have hp := Option.some.inj hreg
          rw [Prod.mk.injEq] at hp
          obtain ⟨rfl, rfl⟩ := hp
          subst offset
          simp [bar0_access, regValue?, hc]

/-- Witness for `bar0_read_truncated`: a 6-byte read of Status (0x2C)
serves 4 bytes and zero-fills the last 2. -/
theorem bar0_read_truncated_witness :
    regValue? st0 0x2C = some (1, 4) ∧ 4 < 6 ∧
    bar0_access st0 [9, 9, 9, 9, 9, 9] 6 0x2C false (fun _ => none) =
      .ok 4 (leBytes 4 1 ++ List.replicate 2 0) st0 :=
  ⟨rfl, by decide,
    bar0_read_truncated st0 [9, 9, 9, 9, 9, 9] 6 0x2C 1 4 (fun _ => none)
      rfl (by decide)⟩

/-- C5: a config-space read spanning the byte-256 boundary returns the
standard-header bytes for [offset, 256), then the capability bytes for the
sub-range of [256, 256 + cap.length) covered by the request, then 0xFF for
every remaining extended byte; the served length is the requested count and
the buffer holds exactly count bytes. -/
theorem config_read_spanning (header cap : List Nat) (offset count : Nat)
    (hh : header.length = 256) (h1 : offset < 256) (h2 : 256 < offset + count) :
    config_space_read header cap offset count =
      (count,
        header.drop offset ++ cap.take (count - (256 - offset)) ++
          List.replicate (count - (256 - offset) - cap.length) 0xFF) ∧
    (header.drop offset ++ cap.take (count - (256 - offset)) ++
        List.replicate (count - (256 - offset) - cap.length) 0xFF).length =
      count := by
  have hdl : (header.drop offset).length = 256 - offset := by
    rw [List.length_drop, hh]
  constructor
  · unfold config_space_read
    have h3 : ¬(offset + count ≤ 256) := by omega
    have h4 : ¬(256 ≤ offset) := by omega
    simp only [if_pos h1, if_neg h3, if_pos h2, if_neg h4, List.drop_zero,
      Nat.zero_add, Nat.sub_zero]
    have hstd : (header.drop offset).take (256 - offset) = header.drop offset :=
      List.take_of_length_le (le_of_eq hdl)
    rw [hstd]
    by_cases hcl : 0 < cap.length
    · rw [if_pos hcl]
      by_cases hfit : count - (256 - offset) ≤ cap.length
      · rw [if_pos hfit]
        simp [List.length_take, List.append_assoc]
        omega
      · rw [if_neg hfit]
        rw [List.take_length, List.take_of_length_le (by omega)]
        simp [List.append_assoc]
    · rw [if_neg hcl]
      have : cap = [] := List.length_eq_zero.mp (by omega)
      subst this
      simp
  · simp [List.length_take, hdl]
    omega

/-- Witness for `config_read_spanning`: a 16-byte read at offset 248 over a
256-byte header and the 28-byte capability of totalVfs = 4. -/
theorem config_read_spanning_witness :
    (List.replicate 256 0xAB).length = 256 ∧ (248 : Nat) < 256 ∧
    (256 : Nat) < 248 + 16 ∧
    config_space_read (List.replicate 256 0xAB) (build_sriov_cap 4) 248 16 =
      (16,
        (List.replicate 256 0xAB).drop 248 ++
          (build_sriov_cap 4).take (16 - (256 - 248)) ++
          List.replicate (16 - (256 - 248) - (build_sriov_cap 4).length) 0xFF) :=
  ⟨by rw [List.length_replicate], by decide, by decide,
    (config_read_spanning (List.replicate 256 0xAB) (build_sriov_cap 4) 248 16
      (by rw [List.length_replicate]) (by decide) (by decide)).1⟩

/-- A fully loaded dictionary: 7776 one-byte words. -/
def wlFull : List (List Nat) := List.replicate 7776 [0x61]

/-- `st0` with a fully loaded dictionary. -/
def stFull : MockAccelState := { st0 with wordlist := wlFull }

/-- The all-zero draw sequence. -/
def eZero : Nat → Nat := fun _ => 0

/-- An entropy source that always returns the 16-bit value 0. -/
def entZero : Nat → Option Nat := fun _ => some 0

/-- With a fully loaded dictionary every wordlist lookup of the generation
loop succeeds, so the loop never crashes. -/
theorem genLoop_ne_crash (wl : List (List Nat)) (entropy : Nat → Option Nat)
    (hfull : wl.length = 7776) :
    ∀ todo i acc remaining,
      genLoop wl entropy i todo acc remaining ≠ GenResult.crash := by
  intro todo
  induction todo with
  | zero => intro i acc remaining; simp [genLoop]
  | succ k ih =>
    intro i acc remaining
    simp only [genLoop]
    cases he : entropy i with
    | none => simp
    | some v =>
      have hidx : selectedIndex v < wl.length := by
        rw [hfull]
        exact Nat.mod_lt _ (by decide)
      cases hw : wl[selectedIndex v]? with
      | none =>
        rw [List.getElem?_eq_none_iff] at hw
        omega
      | some word =>
        simp only [hw]
        split_ifs
        · simp
        · simp
        · exact ih _ _ _
        · simp
        · exact ih _ _ _

/-- Exact behaviour of the generation loop on the success path: when every
draw succeeds, every selected slot is loaded, and the bytes still to be
produced fit in the remaining space, the loop appends exactly the
separator-joined words for iterations `i ..= i+todo-1`. -/
theorem genLoop_success (wl : List (List Nat)) (entropy : Nat → Option Nat)
    (e : Nat → Nat) (n : Nat)
    (hent : ∀ j, j < n → entropy j = some (e j))
    (hwords : ∀ j, j < n → wl[selectedIndex (e j)]? ≠ none) :
    ∀ todo i acc remaining, i + todo = n →
      (((List.range' i todo).map (chunk wl e)).flatten).length ≤ remaining →
      genLoop wl entropy i todo acc remaining =
        .success (acc ++ ((List.range' i todo).map (chunk wl e)).flatten) := by
  intro todo
  induction todo with
  | zero => intro i acc remaining _ _; simp [genLoop]
  | succ k ih =>
    intro i acc remaining hin hrem
    have hi : i < n := by omega
    have he := hent i hi
    obtain ⟨w, hw⟩ := Option.ne_none_iff_exists'.mp (hwords i hi)
    rw [List.range'_succ] at hrem ⊢
    simp only [List.map_cons, List.flatten_cons, List.length_append] at hrem ⊢
    simp only [genLoop, he, hw]
    by_cases hi0 : 0 < i
    · have hch : chunk wl e i = 0x20 :: w := by
        simp [chunk, wordBytes, hw, Nat.pos_iff_ne_zero.mp hi0]
      rw [hch] at hrem ⊢
      simp only [List.length_cons] at hrem
      rw [if_pos hi0, if_neg (by omega), if_neg (by omega),
        ih (i + 1) (acc ++ [0x20] ++ w) (remaining - 1 - w.length)
          (by omega) (by omega)]
      simp [List.append_assoc]
    · have hieq : i = 0 := by omega
      subst hieq
      have hch : chunk wl e 0 = w := by
        simp [chunk, wordBytes, hw]
      rw [hch] at hrem ⊢
      rw [if_neg hi0, if_neg (by omega),
        ih (0 + 1) (acc ++ w) (remaining - w.length) (by omega) (by omega)]
      simp [List.append_assoc]

/-- Whenever `generate_passphrase` terminates, the resulting passphrase
status is Ready (2) or Error (3). -/
theorem generate_status (st : MockAccelState) (entropy : Nat → Option Nat)
    (st2 : MockAccelState)
    (h : generate_passphrase st entropy = some st2) :
    st2.passphraseStatus = 2 ∨ st2.passphraseStatus = 3 := by
  unfold generate_passphrase at h
  split_ifs at h
  · obtain rfl := Option.some.inj h
    right; rfl
  · obtain rfl := Option.some.inj h
    right; rfl
  · cases hg : genLoop st.wordlist entropy 0 st.passphraseLength [] 255 with
    | success acc =>
      rw [hg] at h
      obtain rfl := Option.some.inj h
      left; rfl
    | failure acc =>
      rw [hg] at h
      obtain rfl := Option.some.inj h
      right; rfl
    | crash =>
      rw [hg] at h
      exact Option.noConfusion h

/-- Success path of `generate_passphrase`: valid configured length, fully
loaded dictionary, all draws succeeding and the assembled output fitting in
255 bytes give Ready status, a word count equal to the configured length and
a buffer holding the separator-joined words padded with zero bytes (the
terminator is the first pad byte). -/
theorem generate_passphrase_success (st : MockAccelState)
    (entropy : Nat → Option Nat) (e : Nat → Nat)
    (h4 : 4 ≤ st.passphraseLength) (h12 : st.passphraseLength ≤ 12)
    (hfull : st.wordlist.length = 7776)
    (hent : ∀ j, j < st.passphraseLength → entropy j = some (e j))
    (hfit : (joined st.wordlist e st.passphraseLength).length ≤ 255) :
    generate_passphrase st entropy =
      some { st with
        passphraseBuffer := joined st.wordlist e st.passphraseLength ++
          List.replicate
            (256 - (joined st.wordlist e st.passphraseLength).length) 0,
        passphraseCount := st.passphraseLength,
        passphraseStatus := 2 } := by
  have hwords : ∀ j, j < st.passphraseLength →
      st.wordlist[selectedIndex (e j)]? ≠ none := by
    intro j _
    rw [ne_eq, List.getElem?_eq_none_iff, not_le, hfull]
    exact Nat.mod_lt _ (by decide)
  have hjr : ((List.range' 0 st.passphraseLength).map
      (chunk st.wordlist e)).flatten = joined st.wordlist e st.passphraseLength := by
    rw [joined, List.range_eq_range']
  unfold generate_passphrase
  rw [if_neg (by omega), if_neg (by rw [List.getElem?_eq_none_iff]; omega)]
  rw [genLoop_success st.wordlist entropy e st.passphraseLength hent hwords
    st.passphraseLength 0 [] 255 (by omega) (by rw [hjr]; exact hfit)]
  rw [hjr]
  simp

/-- C2 counterexample: with a dictionary of one loaded word, the draw 5000
selects index 5000 % 7776 = 5000, which is not the draw reduced modulo the
loaded dictionary size and refers to no loaded word; generation on such a
state dereferences an unloaded slot (modelled as the `none` outcome). -/
theorem selected_index_claim_cex :
    selectedIndex 5000 = 5000 ∧
    st0.wordlist.length = 1 ∧
    st0.wordlist[selectedIndex 5000]? = none ∧
    selectedIndex 5000 ≠ 5000 % st0.wordlist.length ∧
    generate_passphrase st0 (fun _ => some 5000) = none := by
  refine ⟨rfl, rfl, rfl, by decide, rfl⟩

/-- C2 (amended): every selected word index is the 16-bit draw reduced
modulo the fixed capacity 7776 (not the loaded count), so it is always
below 7776; whenever the dictionary is fully loaded (7776 words) every
selected index refers to a loaded word and generation never crashes. -/
theorem selected_index_range (st : MockAccelState) (entropy : Nat → Option Nat)
    (hfull : st.wordlist.length = 7776) :
    (∀ v : Nat, selectedIndex v = v % 7776 ∧
      selectedIndex v < st.wordlist.length ∧
      st.wordlist[selectedIndex v]? ≠ none) ∧
    generate_passphrase st entropy ≠ none := by
  constructor
  · intro v
    have hlt : selectedIndex v < st.wordlist.length := by
      rw [hfull]
      exact Nat.mod_lt _ (by decide)
    refine ⟨rfl, hlt, ?_⟩
    rw [ne_eq, List.getElem?_eq_none_iff]
    omega
  · unfold generate_passphrase
    split_ifs
    · simp
    · simp
    · cases hg : genLoop st.wordlist entropy 0 st.passphraseLength [] 255 with
      | success acc => simp [hg]
      | failure acc => simp [hg]
      | crash =>
        exact absurd hg (genLoop_ne_crash st.wordlist entropy hfull _ _ _ _)

/-- The fully loaded dictionary has 7776 words. -/
theorem stFull_len : stFull.wordlist.length = 7776 := by
  show wlFull.length = 7776
  rw [wlFull, List.length_replicate]

/-- Every lookup selected by the all-zero draws hits the fully loaded
dictionary. -/
theorem wlFull_lookup_eZero (j : Nat) :
    wlFull[selectedIndex (eZero j)]? = some [0x61] := by
  have h : selectedIndex (eZero j) < 7776 := Nat.mod_lt _ (by decide)
  rw [wlFull, List.getElem?_replicate, if_pos h]

/-- The passphrase assembled from `stFull` under all-zero draws. -/
theorem joined_stFull :
    joined stFull.wordlist eZero stFull.passphraseLength =
      [0x61, 0x20, 0x61, 0x20, 0x61, 0x20, 0x61] := by
  show joined wlFull eZero 4 = _
  rw [joined, show List.range 4 = [0, 1, 2, 3] by decide]
  simp [chunk, wordBytes, wlFull_lookup_eZero]

/-- That passphrase fits in the 255 output bytes. -/
theorem joined_stFull_fit :
    (joined stFull.wordlist eZero stFull.passphraseLength).length ≤ 255 := by
  rw [joined_stFull]
  norm_num

/-- Witness for `selected_index_range` on a concrete fully loaded
dictionary. -/
theorem selected_index_range_witness :
    stFull.wordlist.length = 7776 ∧
    ((∀ v : Nat, selectedIndex v = v % 7776 ∧
        selectedIndex v < stFull.wordlist.length ∧
        stFull.wordlist[selectedIndex v]? ≠ none) ∧
      generate_passphrase stFull entZero ≠ none) :=
  ⟨stFull_len, selected_index_range stFull entZero stFull_len⟩

/-- C3 counterexample: a state with configured length 4 and a non-empty
(but only partially loaded) dictionary, an entropy source that always
succeeds, and an output that would trivially fit: the second draw selects
an unloaded slot, so the triggering write crashes instead of completing
with Ready status. -/
theorem passphrase_command_claim_cex :
    4 ≤ st0.passphraseLength ∧ st0.passphraseLength ≤ 12 ∧
    st0.wordlist ≠ [] ∧
    (∀ i : Nat, (fun _ : Nat => some (if i = 0 then (0 : Nat) else 1)) i ≠ none) ∧
    generate_passphrase st0 (fun i => some (if i = 0 then 0 else 1)) = none ∧
    bar0_access st0 [1, 0, 0, 0] 4 0x100 true
      (fun i => some (if i = 0 then 0 else 1)) = .crash := by
  refine ⟨by decide, by decide, by decide, fun i => by simp, rfl, rfl⟩

/-- C3 (amended): on a device state with configured PassphraseLength in
4..=12 and a fully loaded dictionary (7776 words), a 4-byte write of value
1 to PassphraseCommand (0x100) with every entropy draw succeeding and the
assembled output fitting in 255 bytes completes generation synchronously:
the access succeeds and the new state has PassphraseStatus Ready (2),
PassphraseWordsGenerated equal to the configured length and a buffer
holding exactly that many dictionary words, one separator before every
word except the first, zero-terminated. -/
theorem passphrase_command_success (st : MockAccelState) (data : List Nat)
    (entropy : Nat → Option Nat) (e : Nat → Nat)
    (hcmd : leDecode4 data = 1)
    (h4 : 4 ≤ st.passphraseLength) (h12 : st.passphraseLength ≤ 12)
    (hfull : st.wordlist.length = 7776)
    (hent : ∀ j, j < st.passphraseLength → entropy j = some (e j))
    (hfit : (joined st.wordlist e st.passphraseLength).length ≤ 255) :
    bar0_access st data 4 0x100 true entropy =
      .ok 4 data { st with
        passphraseBuffer := joined st.wordlist e st.passphraseLength ++
          List.replicate
            (256 - (joined st.wordlist e st.passphraseLength).length) 0,
        passphraseCount := st.passphraseLength,
        passphraseStatus := 2 } := by
  have hg := generate_passphrase_success st entropy e h4 h12 hfull hent hfit
  simp [bar0_access, hcmd, hg]

/-- Witness for `passphrase_command_success` on the fully loaded one-byte
dictionary with the all-zero entropy source. -/
theorem passphrase_command_success_witness :
    leDecode4 [1, 0, 0, 0] = 1 ∧
    4 ≤ stFull.passphraseLength ∧ stFull.passphraseLength ≤ 12 ∧
    stFull.wordlist.length = 7776 ∧
    (∀ j, j < stFull.passphraseLength → entZero j = some (eZero j)) ∧
    (joined stFull.wordlist eZero stFull.passphraseLength).length ≤ 255 ∧
    bar0_access stFull [1, 0, 0, 0] 4 0x100 true entZero =
      .ok 4 [1, 0, 0, 0] { stFull with
        passphraseBuffer := joined stFull.wordlist eZero stFull.passphraseLength ++
          List.replicate
            (256 - (joined stFull.wordlist eZero stFull.passphraseLength).length) 0,
        passphraseCount := stFull.passphraseLength,
        passphraseStatus := 2 } :=
  ⟨by decide, by decide, by decide, stFull_len,
    fun j _ => rfl, joined_stFull_fit,
    passphrase_command_success stFull [1, 0, 0, 0] entZero eZero (by decide)
      (by decide) (by decide) stFull_len
      (fun j _ => rfl) joined_stFull_fit⟩

/-- C7: whenever generation triggered by a 4-byte write of value 1 to
PassphraseCommand (0x100) terminates, the write itself is a successful
access serving all 4 bytes — also for every modelled generation failure
(invalid length, empty dictionary, entropy failure, buffer overflow) — and
the resulting PassphraseStatus is Ready (2) or Error (3), so failures are
observable only through a later status read, never as an access fault. -/
theorem passphrase_command_no_fault (st : MockAccelState) (data : List Nat)
    (entropy : Nat → Option Nat) (st2 : MockAccelState)
    (hcmd : leDecode4 data = 1)
    (hgen : generate_passphrase st entropy = some st2) :
    bar0_access st data 4 0x100 true entropy = .ok 4 data st2 ∧
    (st2.passphraseStatus = 2 ∨ st2.passphraseStatus = 3) := by
  constructor
  · simp [bar0_access, hcmd, hgen]
  · exact generate_status st entropy st2 hgen

/-- `st0` with the invalid configured length 0. -/
def stBad : MockAccelState := { st0 with passphraseLength := 0 }

/-- `stBad` after its failed generation attempt. -/
def stBadErr : MockAccelState := { stBad with passphraseStatus := 3 }

/-- Witness for `passphrase_command_no_fault`: generation fails (configured
length 0 is invalid), yet the command write succeeds and the failure shows
up as PassphraseStatus = 3. -/
theorem passphrase_command_no_fault_witness :
    leDecode4 [1, 0, 0, 0] = 1 ∧
    generate_passphrase stBad (fun _ => none) = some stBadErr ∧
    (bar0_access stBad [1, 0, 0, 0] 4 0x100 true (fun _ => none) =
        .ok 4 [1, 0, 0, 0] stBadErr ∧
      (stBadErr.passphraseStatus = 2 ∨ stBadErr.passphraseStatus = 3)) :=
  ⟨by decide, rfl,
    passphrase_command_no_fault stBad [1, 0, 0, 0] (fun _ => none) stBadErr
      (by decide) rfl⟩

end MockDevice
